import Mathlib

/-!
# Verification of the deferred-rendering demo (`src/main.js`)

A shallow embedding of the data model and operations of the WebGL2
deferred-rendering demo, together with theorems settling the claims of the
specification against the code.

Modelling conventions:
* JavaScript numbers that the claims treat exactly are embedded as `ℚ`
  (rational arithmetic); machine floats play no role in any claim settled
  arithmetically here.
* WebGL is embedded as an explicit call trace (`GLCall`) and, where a claim
  is about binding state, as an explicit state record (`GLFBState`).
* 4×4 matrices built by gl-matrix are embedded symbolically as the list of
  transformation calls applied to them (`Mat`), since the claims about them
  concern *which* transformations are applied and in what order, not their
  numeric entries.
* JavaScript exceptions are embedded by letting a callback return the
  graphics state it reached together with an optional error value
  (`GLFBState × Option ε`): an ambient mutable context keeps the mutations
  performed before a throw, which is exactly the WebGL situation.
-/

/-- An angle as produced by `radians(degrees) = Math.PI/180*degrees`
(`src/main.js:585`), represented exactly by the rational coefficient of
`π/180`. -/
structure Angle where
  degCoeff : ℚ
deriving DecidableEq, Repr

/-- `const radians = (degrees) => Math.PI/180*degrees` (`src/main.js:585`). -/
def radians (degrees : ℚ) : Angle := ⟨degrees⟩

/-- One gl-matrix call applied to a 4×4 matrix (`mat4.rotateX/Y/Z`,
`mat4.translate`), recorded symbolically. -/
inductive Transform where
  | rotateX (a : Angle)
  | rotateY (a : Angle)
  | rotateZ (a : Angle)
  | translate (x y z : ℚ)
deriving DecidableEq, Repr

/-- A model/view/projection matrix, embedded as the ordered list of
transformation calls composed onto it (gl-matrix post-multiplies, so the
list is in application order; `mat4.create()` is the empty list). -/
def Mat : Type := List Transform
deriving instance DecidableEq for Mat

/-- A mesh as produced by the mesh builders: flat position/normal/color
float lists and an index list (`src/main.js:189-330`). -/
structure Mesh where
  positions : List ℚ
  normals : List ℚ
  colors : List ℚ
  indices : List ℕ
deriving DecidableEq, Repr

/-- `createFloorMesh(s)` (`src/main.js:306-330`): a quad of 4 vertices in
the XZ plane at Y = 0, 4 vertex colors, constant normal (0,1,0), and index
list `0,1,2,3,2,1`. -/
def createFloorMesh (s : ℚ) : Mesh :=
  { positions := [
      -s, 0, -s,
      -s, 0,  s,
       s, 0, -s,
       s, 0,  s ]
    colors := [
      1, 0, 0,
      0, 1, 0,
      0, 0, 1,
      1, 1, 0 ]
    normals := [
      0, 1, 0,
      0, 1, 0,
      0, 1, 0,
      0, 1, 0 ]
    indices := [0, 1, 2, 3, 2, 1] }

/-- The `points` array of `createBoxMesh` (`src/main.js:190-200`): the 8
corners of the box of half-extent `s`. -/
def boxPoints (s : ℚ) : List (List ℚ) :=
  [ [ -s,  s,  s ],
    [ -s, -s,  s ],
    [  s,  s,  s ],
    [  s, -s,  s ],
    [ -s,  s, -s ],
    [ -s, -s, -s ],
    [  s,  s, -s ],
    [  s, -s, -s ] ]

/-- The `colors` array of `createBoxMesh` (`src/main.js:202-209`): one flat
color per face. -/
def boxColors : List (List ℚ) :=
  [ [ 1, 0, 0 ],
    [ 0, 1, 0 ],
    [ 0, 0, 1 ],
    [ 1, 1, 0 ],
    [ 0, 1, 1 ],
    [ 1, 0, 1 ] ]

/-- The `normals` array of `createBoxMesh` (`src/main.js:211-224`): one
axis-aligned outward normal per face. -/
def boxNormals : List (List ℚ) :=
  [ [ 0, 0, 1 ],
    [ -1, 0, 0 ],
    [ 0, 0, -1 ],
    [ 1, 0, 0 ],
    [ 0, 1, 0 ],
    [ 0, -1, 0 ] ]

/-- `createBoxMesh(s)` (`src/main.js:189-304`): 6 faces × 2 triangles × 3
vertices, no vertex sharing, positions spread from `points`, per-face flat
normals and colors, and indices `0..35` in emission order. -/
def createBoxMesh (s : ℚ) : Mesh :=
  let p := boxPoints s
  let c := boxColors
  let n := boxNormals
  { positions :=
      p.getD 0 [] ++ p.getD 1 [] ++ p.getD 2 [] ++
      p.getD 2 [] ++ p.getD 1 [] ++ p.getD 3 [] ++
      p.getD 4 [] ++ p.getD 5 [] ++ p.getD 0 [] ++
      p.getD 0 [] ++ p.getD 5 [] ++ p.getD 1 [] ++
      p.getD 6 [] ++ p.getD 7 [] ++ p.getD 4 [] ++
      p.getD 4 [] ++ p.getD 7 [] ++ p.getD 5 [] ++
      p.getD 2 [] ++ p.getD 3 [] ++ p.getD 6 [] ++
      p.getD 6 [] ++ p.getD 3 [] ++ p.getD 7 [] ++
      p.getD 4 [] ++ p.getD 0 [] ++ p.getD 6 [] ++
      p.getD 6 [] ++ p.getD 0 [] ++ p.getD 2 [] ++
      p.getD 1 [] ++ p.getD 5 [] ++ p.getD 3 [] ++
      p.getD 3 [] ++ p.getD 5 [] ++ p.getD 7 []
    normals :=
      n.getD 0 [] ++ n.getD 0 [] ++ n.getD 0 [] ++
      n.getD 0 [] ++ n.getD 0 [] ++ n.getD 0 [] ++
      n.getD 1 [] ++ n.getD 1 [] ++ n.getD 1 [] ++
      n.getD 1 [] ++ n.getD 1 [] ++ n.getD 1 [] ++
      n.getD 2 [] ++ n.getD 2 [] ++ n.getD 2 [] ++
      n.getD 2 [] ++ n.getD 2 [] ++ n.getD 2 [] ++
      n.getD 3 [] ++ n.getD 3 [] ++ n.getD 3 [] ++
      n.getD 3 [] ++ n.getD 3 [] ++ n.getD 3 [] ++
      n.getD 4 [] ++ n.getD 4 [] ++ n.getD 4 [] ++
      n.getD 4 [] ++ n.getD 4 [] ++ n.getD 4 [] ++
      n.getD 5 [] ++ n.getD 5 [] ++ n.getD 5 [] ++
      n.getD 5 [] ++ n.getD 5 [] ++ n.getD 5 []
    colors :=
      c.getD 0 [] ++ c.getD 0 [] ++ c.getD 0 [] ++
      c.getD 0 [] ++ c.getD 0 [] ++ c.getD 0 [] ++
      c.getD 1 [] ++ c.getD 1 [] ++ c.getD 1 [] ++
      c.getD 1 [] ++ c.getD 1 [] ++ c.getD 1 [] ++
      c.getD 2 [] ++ c.getD 2 [] ++ c.getD 2 [] ++
      c.getD 2 [] ++ c.getD 2 [] ++ c.getD 2 [] ++
      c.getD 3 [] ++ c.getD 3 [] ++ c.getD 3 [] ++
      c.getD 3 [] ++ c.getD 3 [] ++ c.getD 3 [] ++
      c.getD 4 [] ++ c.getD 4 [] ++ c.getD 4 [] ++
      c.getD 4 [] ++ c.getD 4 [] ++ c.getD 4 [] ++
      c.getD 5 [] ++ c.getD 5 [] ++ c.getD 5 [] ++
      c.getD 5 [] ++ c.getD 5 [] ++ c.getD 5 []
    indices := [
      0, 1, 2, 3, 4, 5,
      6, 7, 8, 9, 10, 11,
      12, 13, 14, 15, 16, 17,
      18, 19, 20, 21, 22, 23,
      24, 25, 26, 27, 28, 29,
      30, 31, 32, 33, 34, 35 ] }

/-- A point in 3-space over `ℚ`. -/
def Vec3 : Type := ℚ × ℚ × ℚ
deriving instance DecidableEq for Vec3

/-- Vertex `i` of a mesh, read off the flat position list. -/
def Mesh.vertexAt (m : Mesh) (i : ℕ) : Vec3 :=
  (m.positions.getD (3 * i) 0, m.positions.getD (3 * i + 1) 0,
   m.positions.getD (3 * i + 2) 0)

/-- The `t`-th triangle of a mesh: the three vertices referenced by indices
`3t, 3t+1, 3t+2`, in index order. -/
def Mesh.triAt (m : Mesh) (t : ℕ) : Vec3 × Vec3 × Vec3 :=
  (m.vertexAt (m.indices.getD (3 * t) 0),
   m.vertexAt (m.indices.getD (3 * t + 1) 0),
   m.vertexAt (m.indices.getD (3 * t + 2) 0))

/-- Componentwise vector difference. -/
def vsub (a b : Vec3) : Vec3 := (a.1 - b.1, a.2.1 - b.2.1, a.2.2 - b.2.2)

/-- Cross product on `Vec3`. -/
def vcross (a b : Vec3) : Vec3 :=
  (a.2.1 * b.2.2 - a.2.2 * b.2.1,
   a.2.2 * b.1 - a.1 * b.2.2,
   a.1 * b.2.1 - a.2.1 * b.1)

/-- Geometric normal of a triangle from its vertices in index order:
`(b - a) × (c - a)`. -/
def triNormal (t : Vec3 × Vec3 × Vec3) : Vec3 :=
  vcross (vsub t.2.1 t.1) (vsub t.2.2 t.1)

/-- The 2D edge function `(b - a) × (p - a)` on XZ-projected points, used
to characterise triangle membership. -/
def edge2 (a b p : ℚ × ℚ) : ℚ :=
  (b.1 - a.1) * (p.2 - a.2) - (b.2 - a.2) * (p.1 - a.1)

/-- XZ projection of a `Vec3`. -/
def projXZ (v : Vec3) : ℚ × ℚ := (v.1, v.2.2)

/-- Membership of a point in the XZ projection of a triangle,
orientation-agnostically: all three edge functions share a sign. -/
def inTriXZ (t : Vec3 × Vec3 × Vec3) (p : ℚ × ℚ) : Prop :=
  let a := projXZ t.1
  let b := projXZ t.2.1
  let c := projXZ t.2.2
  (0 ≤ edge2 a b p ∧ 0 ≤ edge2 b c p ∧ 0 ≤ edge2 c a p) ∨
  (edge2 a b p ≤ 0 ∧ edge2 b c p ≤ 0 ∧ edge2 c a p ≤ 0)

instance (t : Vec3 × Vec3 × Vec3) (p : ℚ × ℚ) : Decidable (inTriXZ t p) := by
  unfold inTriXZ
  exact inferInstance

set_option maxHeartbeats 2000000 in
/-- `C6`: For every half-extent `s`, `createBoxMesh` emits exactly 36
position triplets (108 floats), 36 normal triplets, 36 color triplets and
36 indices; the indices are the identity permutation `0,1,...,35`, so in
particular every index is `< 36`. -/
theorem createBoxMesh_shape (s : ℚ) :
    (createBoxMesh s).positions.length = 108 ∧
    (createBoxMesh s).normals.length = 108 ∧
    (createBoxMesh s).colors.length = 108 ∧
    (createBoxMesh s).indices.length = 36 ∧
    (createBoxMesh s).indices = List.range 36 ∧
    (createBoxMesh s).indices.all (fun i => i < 36) = true := by
  refine ⟨?_, ?_, ?_, ?_, ?_, ?_⟩ <;>
    simp [createBoxMesh, boxPoints, boxColors, boxNormals]
  all_goals decide

/-- Unfolded membership in the XZ projection of the floor's first triangle
`(v0, v1, v2)`: the lower-left half of the quad. -/
theorem inTriXZ_floor_tri0 (s x z : ℚ) (hs : 0 < s) :
    inTriXZ ((createFloorMesh s).triAt 0) (x, z) ↔
      (-s ≤ x ∧ -s ≤ z ∧ x + z ≤ 0) := by
  simp only [createFloorMesh, Mesh.triAt, Mesh.vertexAt, inTriXZ, projXZ, edge2,
    List.getD_cons_zero, List.getD_cons_succ]
  norm_num
  constructor
  · rintro (⟨h1, h2, h3⟩ | ⟨h1, h2, h3⟩)
    · exfalso
      nlinarith [mul_pos hs hs]
    · refine ⟨by nlinarith, by nlinarith, by nlinarith⟩
  · rintro ⟨h1, h2, h3⟩
    right
    refine ⟨by nlinarith, by nlinarith, by nlinarith⟩

/-- Unfolded membership in the XZ projection of the floor's second triangle
`(v3, v2, v1)`: the upper-right half of the quad. -/
theorem inTriXZ_floor_tri1 (s x z : ℚ) (hs : 0 < s) :
    inTriXZ ((createFloorMesh s).triAt 1) (x, z) ↔
      (x ≤ s ∧ z ≤ s ∧ 0 ≤ x + z) := by
  simp only [createFloorMesh, Mesh.triAt, Mesh.vertexAt, inTriXZ, projXZ, edge2,
    List.getD_cons_zero, List.getD_cons_succ]
  norm_num
  constructor
  · rintro (⟨h1, h2, h3⟩ | ⟨h1, h2, h3⟩)
    · exfalso
      nlinarith [mul_pos hs hs]
    · refine ⟨by nlinarith, by nlinarith, by nlinarith⟩
  · rintro ⟨h1, h2, h3⟩
    right
    refine ⟨by nlinarith, by nlinarith, by nlinarith⟩

/-- `C3`: For every positive half-extent `s`, the floor mesh's index order
`0,1,2,3,2,1` yields two triangles `(v0,v1,v2)` and `(v3,v2,v1)` whose
geometric normals, computed from the vertex positions in index order, are
both `(0, 4s², 0)` — pointing along +Y, hence consistently wound, so a
single face-culling convention treats both alike — and whose XZ projections
together cover exactly the full quad `[-s,s] × [-s,s]`. -/
theorem floorMesh_winding_and_coverage (s : ℚ) (hs : 0 < s) :
    triNormal ((createFloorMesh s).triAt 0) = (0, 4 * s ^ 2, 0) ∧
    triNormal ((createFloorMesh s).triAt 1) = (0, 4 * s ^ 2, 0) ∧
    (0 : ℚ) < 4 * s ^ 2 ∧
    (∀ x z : ℚ,
      (-s ≤ x ∧ x ≤ s ∧ -s ≤ z ∧ z ≤ s) ↔
        (inTriXZ ((createFloorMesh s).triAt 0) (x, z) ∨
         inTriXZ ((createFloorMesh s).triAt 1) (x, z))) := by
  refine ⟨?_, ?_, by positivity, ?_⟩
  · simp only [createFloorMesh, Mesh.triAt, Mesh.vertexAt, triNormal, vsub, vcross,
      List.getD_cons_zero, List.getD_cons_succ]
    norm_num
    ring
  · simp only [createFloorMesh, Mesh.triAt, Mesh.vertexAt, triNormal, vsub, vcross,
      List.getD_cons_zero, List.getD_cons_succ]
    norm_num
    ring
  · intro x z
    rw [inTriXZ_floor_tri0 s x z hs, inTriXZ_floor_tri1 s x z hs]
    constructor
    · rintro ⟨h1, h2, h3, h4⟩
      rcases le_total (x + z) 0 with h | h
      · exact Or.inl ⟨h1, h3, h⟩
      · exact Or.inr ⟨h2, h4, h⟩
    · rintro (⟨h1, h2, h3⟩ | ⟨h1, h2, h3⟩)
      · exact ⟨h1, by linarith, h2, by linarith⟩
      · exact ⟨by linarith, h1, by linarith, h2⟩

/-- Concrete instance of `C3` at the repository's actual floor half-extent
`s = 1.8`: the quad's center point lies in one of the two floor triangles. -/
theorem floorMesh_winding_and_coverage_witness :
    inTriXZ ((createFloorMesh (9/5 : ℚ)).triAt 0) (0, 0) ∨
    inTriXZ ((createFloorMesh (9/5 : ℚ)).triAt 1) (0, 0) := by
  have h := floorMesh_winding_and_coverage (9/5) (by norm_num)
  exact (h.2.2.2 0 0).1 (by norm_num)

/-- WebGL enum `gl.TRIANGLES`. -/
def GL_TRIANGLES : ℕ := 4
/-- WebGL enum `gl.UNSIGNED_INT`. -/
def GL_UNSIGNED_INT : ℕ := 5125
/-- WebGL enum `gl.FLOAT`. -/
def GL_FLOAT : ℕ := 5126
/-- WebGL enum `gl.ARRAY_BUFFER`. -/
def GL_ARRAY_BUFFER : ℕ := 34962
/-- WebGL enum `gl.ELEMENT_ARRAY_BUFFER`. -/
def GL_ELEMENT_ARRAY_BUFFER : ℕ := 34963
/-- WebGL enum `gl.STATIC_DRAW`. -/
def GL_STATIC_DRAW : ℕ := 35044
/-- WebGL enum `gl.COLOR_ATTACHMENT0`. -/
def GL_COLOR_ATTACHMENT0 : ℕ := 36064
/-- WebGL enum `gl.COLOR_ATTACHMENT1`. -/
def GL_COLOR_ATTACHMENT1 : ℕ := 36065
/-- WebGL enum `gl.COLOR_ATTACHMENT2`. -/
def GL_COLOR_ATTACHMENT2 : ℕ := 36066

/-- One WebGL call issued by `RenderObject`, recorded with its arguments.
Buffer/vertex-array handles are natural numbers; `bufferDataF` uploads a
`Float32Array`, `bufferDataU` a `Uint32Array`. -/
inductive GLCall where
  | createVertexArray (id : ℕ)
  | createBuffer (id : ℕ)
  | bindVertexArray (id : Option ℕ)
  | bindBuffer (target : ℕ) (id : Option ℕ)
  | bufferDataF (target : ℕ) (data : List ℚ) (usage : ℕ)
  | bufferDataU (target : ℕ) (data : List ℕ) (usage : ℕ)
  | enableVertexAttribArray (loc : ℕ)
  | disableVertexAttribArray (loc : ℕ)
  | vertexAttribPointer (loc size typ : ℕ) (normalized : Bool) (stride off : ℕ)
  | vertexAttrib3fv (loc : ℕ) (value : List ℚ)
  | uniformMatrix4fv (uname : String) (transpose : Bool) (value : List Transform)
  | drawElements (mode count typ off : ℕ)
deriving DecidableEq, Repr

/-- Is this call a `gl.createBuffer()`? -/
def GLCall.isCreateBuffer : GLCall → Bool
  | .createBuffer _ => true
  | _ => false

/-- Is this call a float-array `gl.bufferData(...)`? -/
def GLCall.isBufferDataF : GLCall → Bool
  | .bufferDataF _ _ _ => true
  | _ => false

/-- Is this call a `gl.drawElements(...)`? -/
def GLCall.isDrawElements : GLCall → Bool
  | .drawElements _ _ _ _ => true
  | _ => false

/-- The state a `RenderObject` owns (`src/main.js:110-120`): its mesh, the
`options.color` value if any (JS truthiness of `options.color` modelled by
`Option`), its model matrix, and the GPU handles it created. -/
structure RObject where
  mesh : Mesh
  colorOpt : Option (List ℚ)
  mMatrix : List Transform
  vao : ℕ
  vboPosition : ℕ
  vboNormal : ℕ
  vboColor : ℕ
  ebo : ℕ
deriving DecidableEq, Repr

/-- The `RenderObject` constructor (`src/main.js:110-164`): `n` is the
next fresh GPU handle, so `createVertexArray`/`createBuffer` return
`n, n+1, ...` in call order. Returns the constructed object and the exact
WebGL call trace the constructor issues; note `this.vbo['color'] =
gl.createBuffer()` (line 119) runs unconditionally, while the
color-attribute branch (lines 142-151) depends on `options.color`. -/
def mkRenderObject (mesh : Mesh) (colorOpt : Option (List ℚ)) (n : ℕ) :
    RObject × List GLCall :=
  let obj : RObject :=
    { mesh := mesh, colorOpt := colorOpt, mMatrix := [],
      vao := n, vboPosition := n + 1, vboNormal := n + 2,
      vboColor := n + 3, ebo := n + 4 }
  (obj,
    [ GLCall.createVertexArray obj.vao,
      GLCall.createBuffer obj.vboPosition,
      GLCall.createBuffer obj.vboNormal,
      GLCall.createBuffer obj.vboColor,
      GLCall.createBuffer obj.ebo,
      GLCall.bindVertexArray (some obj.vao),
      GLCall.bindBuffer GL_ARRAY_BUFFER (some obj.vboPosition),
      GLCall.bufferDataF GL_ARRAY_BUFFER mesh.positions GL_STATIC_DRAW,
      GLCall.enableVertexAttribArray 0,
      GLCall.vertexAttribPointer 0 3 GL_FLOAT false 0 0,
      GLCall.bindBuffer GL_ARRAY_BUFFER (some obj.vboNormal),
      GLCall.bufferDataF GL_ARRAY_BUFFER mesh.normals GL_STATIC_DRAW,
      GLCall.enableVertexAttribArray 1,
      GLCall.vertexAttribPointer 1 3 GL_FLOAT false 0 0 ]
    ++ (match colorOpt with
        | none =>
          [ GLCall.bindBuffer GL_ARRAY_BUFFER (some obj.vboColor),
            GLCall.bufferDataF GL_ARRAY_BUFFER mesh.colors GL_STATIC_DRAW,
            GLCall.enableVertexAttribArray 2,
            GLCall.vertexAttribPointer 2 3 GL_FLOAT false 0 0 ]
        | some cval =>
          [ GLCall.disableVertexAttribArray 2,
            GLCall.vertexAttrib3fv 2 cval ])
    ++ [ GLCall.bindBuffer GL_ELEMENT_ARRAY_BUFFER (some obj.ebo),
         GLCall.bufferDataU GL_ELEMENT_ARRAY_BUFFER mesh.indices GL_STATIC_DRAW,
         GLCall.bindVertexArray none,
         GLCall.bindBuffer GL_ARRAY_BUFFER none,
         GLCall.bindBuffer GL_ELEMENT_ARRAY_BUFFER none ])

/-- `RenderObject.render` (`src/main.js:166-178`): early-returns when
`this.mesh.indices.length` is falsy (0); otherwise sets the three matrix
uniforms by name, binds the VAO, issues one `drawElements`, and unbinds. -/
def RObject.render (o : RObject) (vM pM : List Transform) : List GLCall :=
  if o.mesh.indices.length = 0 then []
  else
    [ GLCall.uniformMatrix4fv "uMMatrix" false o.mMatrix,
      GLCall.uniformMatrix4fv "uVMatrix" false vM,
      GLCall.uniformMatrix4fv "uPMatrix" false pM,
      GLCall.bindVertexArray (some o.vao),
      GLCall.drawElements GL_TRIANGLES o.mesh.indices.length GL_UNSIGNED_INT 0,
      GLCall.bindVertexArray none ]

/-- `C1` counterexample: at the repository's actual floor construction
(`src/main.js:430`, mesh `createFloorMesh(1.8)` with option
`color: [0.6, 0.6, 0.6]`), the constructor's call trace *does* contain a
`createBuffer` for the color handle (`this.vbo['color']`, line 119), so
"construction with a color option never creates a color buffer resource
handle" is false. -/
theorem mkRenderObject_colorBuffer_counterexample :
    GLCall.createBuffer
        (mkRenderObject (createFloorMesh (9/5)) (some [3/5, 3/5, 3/5]) 0).1.vboColor
      ∈ (mkRenderObject (createFloorMesh (9/5)) (some [3/5, 3/5, 3/5]) 0).2 := by
  decide

/-- `C1` amended: the constructor always creates the color buffer handle
(4 `createBuffer` calls either way); with a `color` option present it never
binds that handle and uploads no data into it (only 2 float `bufferData`
calls occur: positions and normals), disables attribute array 2 and binds
the constant color at location 2 via `vertexAttrib3fv`; without the option
a third float `bufferData` fills the color buffer from `mesh.colors` and
attribute array 2 is enabled as varying. -/
theorem mkRenderObject_color_path (mesh : Mesh) (copt : Option (List ℚ)) (n : ℕ) :
    ((mkRenderObject mesh copt n).2.countP (fun call => call.isCreateBuffer)) = 4 ∧
    GLCall.createBuffer (mkRenderObject mesh copt n).1.vboColor ∈
      (mkRenderObject mesh copt n).2 ∧
    (∀ c, copt = some c →
      (GLCall.bindBuffer GL_ARRAY_BUFFER (some (mkRenderObject mesh copt n).1.vboColor) ∉
          (mkRenderObject mesh copt n).2) ∧
      ((mkRenderObject mesh copt n).2.countP (fun call => call.isBufferDataF)) = 2 ∧
      GLCall.enableVertexAttribArray 2 ∉ (mkRenderObject mesh copt n).2 ∧
      GLCall.disableVertexAttribArray 2 ∈ (mkRenderObject mesh copt n).2 ∧
      GLCall.vertexAttrib3fv 2 c ∈ (mkRenderObject mesh copt n).2) ∧
    (copt = none →
      GLCall.bindBuffer GL_ARRAY_BUFFER (some (mkRenderObject mesh copt n).1.vboColor) ∈
          (mkRenderObject mesh copt n).2 ∧
      GLCall.bufferDataF GL_ARRAY_BUFFER mesh.colors GL_STATIC_DRAW ∈
          (mkRenderObject mesh copt n).2 ∧
      ((mkRenderObject mesh copt n).2.countP (fun call => call.isBufferDataF)) = 3 ∧
      GLCall.enableVertexAttribArray 2 ∈ (mkRenderObject mesh copt n).2) := by
  rcases copt with _ | cval <;>
    refine ⟨?_, ?_, ?_, ?_⟩ <;>
    simp [mkRenderObject, GLCall.isCreateBuffer, GLCall.isBufferDataF,
      List.countP_cons, List.countP_append]

/-- Concrete instance of `C1`'s amended statement at the repository's floor
and box constructions. -/
theorem mkRenderObject_color_path_witness :
    GLCall.vertexAttrib3fv 2 [3/5, 3/5, 3/5] ∈
      (mkRenderObject (createFloorMesh (9/5)) (some [3/5, 3/5, 3/5]) 0).2 ∧
    GLCall.enableVertexAttribArray 2 ∈
      (mkRenderObject (createBoxMesh (2/5)) none 5).2 := by
  refine ⟨((mkRenderObject_color_path (createFloorMesh (9/5))
      (some [3/5, 3/5, 3/5]) 0).2.2.1 _ rfl).2.2.2.2, ?_⟩
  exact ((mkRenderObject_color_path (createBoxMesh (2/5)) none 5).2.2.2 rfl).2.2.2

/-- `C7`: `RenderObject.render` is a no-op when the mesh's index list is
empty (no uniforms set, no draw issued) while construction with an empty
index list still succeeds and stores the mesh; with a non-empty index list,
render sets the three matrix uniforms `uMMatrix`, `uVMatrix`, `uPMatrix`
and issues exactly one indexed `TRIANGLES` draw over the full index range
with `UNSIGNED_INT` indices. -/
theorem render_draw_call_spec (o : RObject) (vM pM : List Transform)
    (mesh : Mesh) (copt : Option (List ℚ)) (n : ℕ) :
    (o.mesh.indices = [] → o.render vM pM = []) ∧
    (mesh.indices = [] →
      (mkRenderObject mesh copt n).1.mesh = mesh ∧
      ((mkRenderObject mesh copt n).1).render vM pM = []) ∧
    (o.mesh.indices ≠ [] →
      GLCall.uniformMatrix4fv "uMMatrix" false o.mMatrix ∈ o.render vM pM ∧
      GLCall.uniformMatrix4fv "uVMatrix" false vM ∈ o.render vM pM ∧
      GLCall.uniformMatrix4fv "uPMatrix" false pM ∈ o.render vM pM ∧
      (o.render vM pM).countP (fun call => call.isDrawElements) = 1 ∧
      GLCall.drawElements GL_TRIANGLES o.mesh.indices.length GL_UNSIGNED_INT 0 ∈
        o.render vM pM) := by
  refine ⟨?_, ?_, ?_⟩
  · intro h
    simp [RObject.render, h]
  · intro h
    refine ⟨rfl, ?_⟩
    simp [RObject.render, mkRenderObject, h]
  · intro h
    have hlen : o.mesh.indices.length ≠ 0 := by
      simpa [List.length_eq_zero] using h
    simp [RObject.render, hlen, GLCall.isDrawElements, List.countP_cons]

/-- Concrete instance of `C7`: the repository's box object (non-empty
indices) issues its draw call, and an object built from an index-free mesh
renders nothing. -/
theorem render_draw_call_spec_witness :
    GLCall.drawElements GL_TRIANGLES
        (mkRenderObject (createBoxMesh (2/5)) none 5).1.mesh.indices.length
        GL_UNSIGNED_INT 0 ∈
      ((mkRenderObject (createBoxMesh (2/5)) none 5).1).render [] [] ∧
    ((mkRenderObject (Mesh.mk [] [] [] []) none 0).1).render [] [] = [] := by
  constructor
  · exact ((render_draw_call_spec (mkRenderObject (createBoxMesh (2/5)) none 5).1
      [] [] (createBoxMesh (2/5)) none 5).2.2 (by decide)).2.2.2.2
  · exact ((render_draw_call_spec (mkRenderObject (Mesh.mk [] [] [] []) none 0).1
      [] [] (Mesh.mk [] [] [] []) none 0).2.1 rfl).2

/-- The WebGL binding state relevant to `createFramebuffer`'s `capture`
(`src/main.js:372-379`): the currently bound framebuffer (`none` is the
default draw target) and the declared draw-buffer list. -/
structure GLFBState where
  boundFramebuffer : Option ℕ
  activeDrawBuffers : List ℕ
deriving DecidableEq, Repr

/-- `gl.bindFramebuffer(gl.FRAMEBUFFER, fb)`. -/
def bindFramebuffer (fb : Option ℕ) (s : GLFBState) : GLFBState :=
  { s with boundFramebuffer := fb }

/-- `gl.drawBuffers(bufs)`. -/
def drawBuffersCall (bufs : List ℕ) (s : GLFBState) : GLFBState :=
  { s with activeDrawBuffers := bufs }

/-- The state `capture` prepares before invoking its callback
(`src/main.js:373-374`): bind the offscreen framebuffer `fb`, declare the
three color attachments as simultaneous write targets. -/
def captureSetup (fb : ℕ) (s : GLFBState) : GLFBState :=
  drawBuffersCall [GL_COLOR_ATTACHMENT0, GL_COLOR_ATTACHMENT1, GL_COLOR_ATTACHMENT2]
    (bindFramebuffer (some fb) s)

/-- `capture(cb)` (`src/main.js:372-379`). A callback is modelled as a
function from the prepared GL state to the state it reaches together with
`some e` if it threw exception `e` (mutations before a throw persist, as
they do on the ambient WebGL context). `capture` has no try/finally: on a
normal return it rebinds the default target (line 378); on a throw the
rebind never runs and the exception propagates. -/
def capture (fb : ℕ) (cb : GLFBState → GLFBState × Option ℕ) (s : GLFBState) :
    GLFBState × Option ℕ :=
  let r := cb (captureSetup fb s)
  match r.2 with
  | none => (bindFramebuffer none r.1, none)
  | some _ => r

/-- `C4`: for every callback that returns normally, `capture` first binds
the offscreen framebuffer and declares attachments 0, 1, 2 as simultaneous
write targets, then invokes the callback on that prepared state, and after
it returns always rebinds the default draw target — even if the callback
performed no draws. -/
theorem capture_restores_default (fb : ℕ) (cb : GLFBState → GLFBState × Option ℕ)
    (s : GLFBState) (hok : (cb (captureSetup fb s)).2 = none) :
    (captureSetup fb s).boundFramebuffer = some fb ∧
    (captureSetup fb s).activeDrawBuffers =
      [GL_COLOR_ATTACHMENT0, GL_COLOR_ATTACHMENT1, GL_COLOR_ATTACHMENT2] ∧
    capture fb cb s = (bindFramebuffer none (cb (captureSetup fb s)).1, none) ∧
    (capture fb cb s).1.boundFramebuffer = none := by
  refine ⟨rfl, rfl, ?_, ?_⟩ <;> simp [capture, hok, bindFramebuffer]

/-- Concrete instance of `C4`: a callback that draws nothing and returns
normally still ends with the default target bound. -/
theorem capture_restores_default_witness :
    (capture 7 (fun t => (t, none)) ⟨none, []⟩).1.boundFramebuffer = none := by
  exact (capture_restores_default 7 (fun t => (t, none)) ⟨none, []⟩ rfl).2.2.2

/-- `C10`: if the callback throws, `capture` propagates the exception and
performs no rebind, so as long as the callback itself left the framebuffer
binding where `capture` put it, the offscreen framebuffer remains bound on
the exceptional exit path. -/
theorem capture_throw_leaves_bound (fb : ℕ) (cb : GLFBState → GLFBState × Option ℕ)
    (s : GLFBState) (e : ℕ) (herr : (cb (captureSetup fb s)).2 = some e) :
    capture fb cb s = cb (captureSetup fb s) ∧
    (capture fb cb s).2 = some e ∧
    ((cb (captureSetup fb s)).1.boundFramebuffer = some fb →
      (capture fb cb s).1.boundFramebuffer = some fb) := by
  refine ⟨?_, ?_, ?_⟩ <;> simp [capture, herr]

/-- Concrete instance of `C10`: a callback that throws immediately leaves
the offscreen framebuffer (handle 7) bound, and the error escapes. -/
theorem capture_throw_leaves_bound_witness :
    (capture 7 (fun t => (t, some 3)) ⟨none, []⟩).1.boundFramebuffer = some 7 ∧
    (capture 7 (fun t => (t, some 3)) ⟨none, []⟩).2 = some 3 := by
  have h := capture_throw_leaves_bound 7 (fun t => (t, some 3)) ⟨none, []⟩ 3 rfl
  exact ⟨h.2.2 rfl, h.2.1⟩

/-- An RGBA value as handled by the composite fragment shader. -/
structure RGBA where
  r : ℚ
  g : ℚ
  b : ℚ
  a : ℚ
deriving DecidableEq, Repr

/-- The `main()` of `fragment_source2` (`src/main.js:96-106`), in exact
rational arithmetic: if `uIsSingleChannel`, read the red channel `c`,
linearize it when `uUseLinear`, and output `(c, c, c, 1)`; otherwise output
the raw sample. -/
def compositeFragmentShader (samp : RGBA) (uIsSingleChannel uUseLinear : Bool)
    (uNear uFar : ℚ) : RGBA :=
  if uIsSingleChannel then
    let c := samp.r
    let c2 := if uUseLinear then (2 * uNear) / (uFar + uNear - c * (uFar - uNear)) else c
    ⟨c2, c2, c2, 1⟩
  else samp

/-- `C5`: with both flags set the composite shader outputs `(L, L, L, 1)`
where `L = (2·near) / (far + near - c·(far - near))` and `c` is the red
channel; with `near = 0.8`, `far = 100` this gives `L = 1` at `c = 1` and
`L = 1.6/100.8` at `c = 0`; with the single-channel flag false the output
is the raw RGBA sample, whatever the other flag. -/
theorem compositeFragmentShader_spec (samp : RGBA) (ul : Bool) (uNear uFar : ℚ) :
    compositeFragmentShader samp true true uNear uFar =
      ⟨(2 * uNear) / (uFar + uNear - samp.r * (uFar - uNear)),
       (2 * uNear) / (uFar + uNear - samp.r * (uFar - uNear)),
       (2 * uNear) / (uFar + uNear - samp.r * (uFar - uNear)), 1⟩ ∧
    compositeFragmentShader ⟨1, samp.g, samp.b, samp.a⟩ true true 0.8 100 =
      ⟨1, 1, 1, 1⟩ ∧
    compositeFragmentShader ⟨0, samp.g, samp.b, samp.a⟩ true true 0.8 100 =
      ⟨1.6 / 100.8, 1.6 / 100.8, 1.6 / 100.8, 1⟩ ∧
    compositeFragmentShader samp false ul uNear uFar = samp := by
  refine ⟨rfl, ?_, ?_, rfl⟩ <;> · simp [compositeFragmentShader]; norm_num

/-- Canvas width in pixels (`src/main.js:405`). -/
def screenWidth : ℚ := 640

/-- Canvas height in pixels (`src/main.js:406`). -/
def screenHeight : ℚ := 480

/-- `const w = (width/4)/2` (`src/main.js:513`). -/
def dbgW : ℚ := (screenWidth / 4) / 2

/-- `const h = w*(height/width)` (`src/main.js:514`). -/
def dbgH : ℚ := dbgW * (screenHeight / screenWidth)

/-- Which G-buffer texture a composite draw samples. -/
inductive GBufTex where
  | diffuse
  | normal
  | position
  | depth
deriving DecidableEq, Repr

/-- One `renderTexture(texture, isSingleChannel, useLinear)` invocation
(`src/main.js:482-494`) together with the viewport set just before it. -/
structure TexDraw where
  viewport : ℚ × ℚ × ℚ × ℚ
  tex : GBufTex
  isSingleChannel : Bool
  useLinear : Bool
deriving DecidableEq, Repr

/-- The per-frame composite pass of `render` (`src/main.js:506-531`): four
shrunk debug views along the top of the screen, then the full-screen
composite of the diffuse buffer, with the exact flag arguments passed at
lines 517, 520, 523, 526 and 531. -/
def compositePassDraws : List TexDraw :=
  [ ⟨(dbgW * 0, screenHeight - dbgH, dbgW, dbgH), GBufTex.diffuse, false, false⟩,
    ⟨(dbgW * 1, screenHeight - dbgH, dbgW, dbgH), GBufTex.normal, false, false⟩,
    ⟨(dbgW * 2, screenHeight - dbgH, dbgW, dbgH), GBufTex.position, false, false⟩,
    ⟨(dbgW * 3, screenHeight - dbgH, dbgW, dbgH), GBufTex.depth, true, false⟩,
    ⟨(0, 0, screenWidth, screenHeight), GBufTex.diffuse, false, false⟩ ]

/-- `C2` counterexample: the fourth shrunk debug view (index 3) samples the
depth buffer with the single-channel flag true but the use-linear flag
*false* (`renderTexture(fb.depthBuf, true, false)`, `src/main.js:526`), so
the claim that linearization is enabled there is false. -/
theorem compositePass_depth_not_linearized :
    ¬ ((compositePassDraws.getD 3 ⟨(0, 0, 0, 0), GBufTex.diffuse, false, false⟩).tex
          = GBufTex.depth ∧
       (compositePassDraws.getD 3 ⟨(0, 0, 0, 0), GBufTex.diffuse, false, false⟩).isSingleChannel
          = true ∧
       (compositePassDraws.getD 3 ⟨(0, 0, 0, 0), GBufTex.diffuse, false, false⟩).useLinear
          = true) := by
  decide

/-- `C2` amended: the composite pass issues five texture draws — diffuse,
normal, position, depth debug views then the full-screen diffuse — where
the depth view alone has the single-channel flag set, *every* draw has the
use-linear flag false (the depth debug view shows raw, non-linearized
depth), and the viewports are the four 80×60 top-row rectangles followed by
the full 640×480 screen. -/
theorem compositePass_flags :
    compositePassDraws.map TexDraw.tex =
      [GBufTex.diffuse, GBufTex.normal, GBufTex.position, GBufTex.depth,
       GBufTex.diffuse] ∧
    compositePassDraws.map TexDraw.isSingleChannel = [false, false, false, true, false] ∧
    compositePassDraws.map TexDraw.useLinear = [false, false, false, false, false] ∧
    compositePassDraws.map TexDraw.viewport =
      [(0, 420, 80, 60), (80, 420, 80, 60), (160, 420, 80, 60), (240, 420, 80, 60),
       (0, 0, 640, 480)] := by
  refine ⟨rfl, rfl, rfl, ?_⟩
  simp [compositePassDraws, dbgW, dbgH, screenWidth, screenHeight]
  norm_num

/-- The per-frame incremental rotation applied to non-floor objects
(`src/main.js:474-476`): 0.4° about Y, then 0.25° about Z, then 0.6° about
X, each converted by `radians`. -/
def frameRotationDelta : List Transform :=
  [ Transform.rotateY (radians 0.4),
    Transform.rotateZ (radians 0.25),
    Transform.rotateX (radians 0.6) ]

/-- The effect of the `objects.forEach` body on one object
(`src/main.js:473-477`): the identity test `object != floor` is modelled by
comparing VAO handles, which are unique per constructed object. -/
def stepObject (floorVao : ℕ) (o : RObject) : RObject :=
  if o.vao = floorVao then o
  else { o with mMatrix := o.mMatrix ++ frameRotationDelta }

/-- Concatenated render traces of a list of objects. -/
def concatRenderTraces (vM pM : List Transform) : List RObject → List GLCall
  | [] => []
  | o :: rest => o.render vM pM ++ concatRenderTraces vM pM rest

/-- The `objects.forEach` loop of `renderGeometry` (`src/main.js:472-479`):
each object is rotated in place (unless it is the floor) and then
immediately rendered; returns the updated objects and the call trace in
loop order. -/
def geometryPass (floorVao : ℕ) (vM pM : List Transform) :
    List RObject → List RObject × List GLCall
  | [] => ([], [])
  | o :: rest =>
    let o2 := stepObject floorVao o
    let r := geometryPass floorVao vM pM rest
    (o2 :: r.1, o2.render vM pM ++ r.2)

/-- The objects after the geometry pass are exactly the stepped objects. -/
theorem geometryPass_fst (floorVao : ℕ) (vM pM : List Transform)
    (objs : List RObject) :
    (geometryPass floorVao vM pM objs).1 = objs.map (stepObject floorVao) := by
  induction objs with
  | nil => rfl
  | cons o rest ih => simp [geometryPass, ih]

/-- The geometry-pass trace renders each object in its *updated* state, in
list order. -/
theorem geometryPass_snd (floorVao : ℕ) (vM pM : List Transform)
    (objs : List RObject) :
    (geometryPass floorVao vM pM objs).2 =
      concatRenderTraces vM pM (objs.map (stepObject floorVao)) := by
  induction objs with
  | nil => rfl
  | cons o rest ih => simp [geometryPass, concatRenderTraces, ih]

/-- `C8`: on each frame's geometry pass the floor object's model matrix is
left unchanged while every non-floor object's model matrix is composed with
incremental rotations of 0.4° about Y, then 0.25° about Z, then 0.6° about
X; the rotation happens before the object is rendered, since the emitted
trace renders the stepped objects. -/
theorem geometryPass_rotations (floorVao : ℕ) (vM pM : List Transform)
    (objs : List RObject) :
    (geometryPass floorVao vM pM objs).1 = objs.map (stepObject floorVao) ∧
    (geometryPass floorVao vM pM objs).2 =
      concatRenderTraces vM pM (objs.map (stepObject floorVao)) ∧
    (∀ o : RObject, o.vao = floorVao → stepObject floorVao o = o) ∧
    (∀ o : RObject, o.vao ≠ floorVao →
      (stepObject floorVao o).mMatrix =
        o.mMatrix ++ [Transform.rotateY (radians 0.4), Transform.rotateZ (radians 0.25),
          Transform.rotateX (radians 0.6)]) := by
  refine ⟨geometryPass_fst floorVao vM pM objs, geometryPass_snd floorVao vM pM objs,
    ?_, ?_⟩
  · intro o h
    simp [stepObject, h]
  · intro o h
    simp [stepObject, h, frameRotationDelta]

/-- Concrete instance of `C8` at the repository's floor (VAO 0) and first
box (VAO 5): the floor is untouched, the box matrix gains the three
rotations. -/
theorem geometryPass_rotations_witness :
    stepObject 0 (mkRenderObject (createFloorMesh (9/5)) (some [3/5, 3/5, 3/5]) 0).1 =
      (mkRenderObject (createFloorMesh (9/5)) (some [3/5, 3/5, 3/5]) 0).1 ∧
    (stepObject 0 (mkRenderObject (createBoxMesh (2/5)) none 5).1).mMatrix =
      [Transform.rotateY (radians 0.4), Transform.rotateZ (radians 0.25),
       Transform.rotateX (radians 0.6)] := by
  have h := geometryPass_rotations 0 [] [] []
  constructor
  · exact h.2.2.1 (mkRenderObject (createFloorMesh (9/5)) (some [3/5, 3/5, 3/5]) 0).1 rfl
  · exact h.2.2.2 (mkRenderObject (createBoxMesh (2/5)) none 5).1 (by decide)

/-- One execution of the animation-loop body (`src/main.js:537-546`), given
the outcome of `render()` for that frame (`none` = returned normally,
`some e` = threw `e`): returns the errors passed to `console.error` and the
number of `requestAnimationFrame` registrations performed. The try/catch
wraps the whole body, and `requestAnimationFrame` is only reached when
`render()` does not throw. -/
def loopStep (outcome : Option ℕ) : List ℕ × ℕ :=
  match outcome with
  | none => ([], 1)
  | some e => ([e], 0)

/-- Whether the `n`-th frame callback runs, given each frame's render
outcome: frame 0 is registered at startup (`src/main.js:557`), and frame
`n+1` runs iff frame `n` ran and its body performed a registration. -/
def frameRuns (outcome : ℕ → Option ℕ) : ℕ → Bool
  | 0 => true
  | n + 1 => frameRuns outcome n && ((loopStep (outcome n)).2 == 1)

/-- Once frame `n` throws, no frame after `n` ever runs. -/
theorem frameRuns_false_after (outcome : ℕ → Option ℕ) (n : ℕ) (e : ℕ)
    (h : outcome n = some e) :
    ∀ k : ℕ, frameRuns outcome (n + 1 + k) = false := by
  intro k
  induction k with
  | zero => simp [frameRuns, loopStep, h]
  | succ k ih =>
    have heq : n + 1 + (k + 1) = (n + 1 + k) + 1 := by omega
    rw [heq]
    simp [frameRuns, ih]

/-- `C9`: if rendering frame `n` throws `e`, the loop body logs exactly
`e` and registers no new animation-frame callback, so no frame after `n`
ever runs; if frame `n` renders without an exception, its body registers
exactly one new callback and logs nothing. -/
theorem loop_halts_on_throw (outcome : ℕ → Option ℕ) (n : ℕ) :
    (∀ e, outcome n = some e →
      loopStep (outcome n) = ([e], 0) ∧
      ∀ m, n < m → frameRuns outcome m = false) ∧
    (outcome n = none → loopStep (outcome n) = ([], 1)) := by
  constructor
  · intro e he
    refine ⟨by simp [loopStep, he], ?_⟩
    intro m hm
    have hk : m = n + 1 + (m - n - 1) := by omega
    rw [hk]
    exact frameRuns_false_after outcome n e he (m - n - 1)
  · intro he
    simp [loopStep, he]

/-- Concrete instance of `C9`: with a render that throws on frame 2 and
succeeds otherwise, frame 2 logs its error and registers nothing, frame 5
never runs, and frame 1's body registered exactly one callback. -/
theorem loop_halts_on_throw_witness :
    loopStep ((fun k => if k = 2 then some 7 else none) 2) = ([7], 0) ∧
    frameRuns (fun k => if k = 2 then some 7 else none) 5 = false ∧
    loopStep ((fun k => if k = 2 then some 7 else none) 1) = ([], 1) := by
  have h2 := loop_halts_on_throw (fun k => if k = 2 then some 7 else none) 2
  have h1 := loop_halts_on_throw (fun k => if k = 2 then some 7 else none) 1
  exact ⟨(h2.1 7 rfl).1, (h2.1 7 rfl).2 5 (by norm_num), h1.2 rfl⟩
